import Mathlib

/-
Verification of the MedAlze backend (Flask HTTP service around a CheXNet
multi-label chest X-ray classifier plus an LLM report generator).

Shallow embedding of:
  backend/model.py   (CONDITIONS, NO_FINDING_THRESHOLD, load_densenet_model,
                      predict_image)
  backend/utils.py   (preprocess_image)
  backend/app.py     (allowed_file, the predict endpoint, the
                      generate_report endpoint with its markdown-fence JSON
                      extraction)

Python strings are modelled as List Char (or Lean String for state-dict
keys), floats as rationals, Python dicts as insertion-ordered association
lists with Python dict insert semantics, and raising code as Option /
Except values.  External library calls (PIL decoding and resampling,
torch.load, load_state_dict, the Gemini API, json.loads) are parameters
of the embedding; everything written in the repository itself is
translated concretely.
-/

set_option maxRecDepth 8000

namespace MedAlze

/-! ## Python-semantics helpers -/

/-- Python dict insertion: `d[k] = v`.  If the key is present its value is
updated in place (position preserved); otherwise the pair is appended,
matching Python 3.7+ insertion order. -/
def pyDictInsert {K V : Type} [DecidableEq K] (d : List (K × V)) (k : K) (v : V) :
    List (K × V) :=
  if d.any (fun p => decide (p.1 = k)) then
    d.map (fun p => if p.1 = k then (k, v) else p)
  else
    d ++ [(k, v)]

/-- Build a Python dict (insertion-ordered association list) from a list of
key/value pairs, inserting left to right, as a dict comprehension does. -/
def pyDictOfList {K V : Type} [DecidableEq K] (l : List (K × V)) : List (K × V) :=
  l.foldl (fun d p => pyDictInsert d p.1 p.2) []

/-- Python `max(a, b)`: keeps the first argument on ties. -/
def qmax (a b : ℚ) : ℚ := if a < b then b else a

/-- Python `max(iterable)`: none on an empty iterable (ValueError). -/
def pyMax : List ℚ → Option ℚ
  | [] => none
  | x :: xs => some (xs.foldl qmax x)

/-- Whether `pat` occurs in `text` starting exactly at index `i`. -/
def substrAt (text pat : List Char) (i : Nat) : Bool :=
  (text.drop i).take pat.length == pat

/-- Python `text.find(pat)` for nonempty `pat`: the smallest index where
`pat` occurs; `none` models the `-1` sentinel. -/
def pyFind (text pat : List Char) : Option Nat :=
  (List.range (text.length + 1)).find? (substrAt text pat)

/-- Python `text.rfind(pat)` for nonempty `pat`: the largest index where
`pat` occurs; `none` models the `-1` sentinel. -/
def pyRFind (text pat : List Char) : Option Nat :=
  ((List.range (text.length + 1)).reverse).find? (substrAt text pat)

/-- Python slicing `text[a:b]` for `0 ≤ a`, `0 ≤ b` (empty when `b ≤ a`,
clamped at the end of the string). -/
def pySlice (text : List Char) (a b : Nat) : List Char :=
  (text.drop a).take (b - a)

/-- Python `str.strip()`: drop leading and trailing whitespace. -/
def pyStrip (s : List Char) : List Char :=
  ((s.dropWhile Char.isWhitespace).reverse.dropWhile Char.isWhitespace).reverse

/-- The characters after the last '.' of `s` (meaningful when `s` contains
a '.'): the `[1]` component of Python `s.rsplit('.', 1)`. -/
def afterLastDot (s : List Char) : List Char :=
  (s.reverse.takeWhile (fun c => c != '.')).reverse

/-- The extension part of Python `os.path.splitext(s)`, dot included.
Leading dots of the name do not start an extension. -/
def splitext_ext (s : List Char) : List Char :=
  let lead := s.takeWhile (fun c => c == '.')
  let rest := s.drop lead.length
  if rest.contains '.' then '.' :: afterLastDot rest else []

/-- A minimal Python value universe, enough to model the JSON request
bodies that reach the generate_report endpoint. -/
inductive PyVal where
  | vNone : PyVal
  | vBool : Bool → PyVal
  | vInt : Int → PyVal
  | vStr : String → PyVal
  | vList : List PyVal → PyVal
  | vDictE : List (String × PyVal) → PyVal

/-- Python truthiness: None, False, 0, empty string/list/dict are falsy. -/
def pyTruthy : PyVal → Bool
  | .vNone => false
  | .vBool b => b
  | .vInt n => decide (n ≠ 0)
  | .vStr s => decide (s ≠ "")
  | .vList l => !l.isEmpty
  | .vDictE d => !d.isEmpty

/-- Python `d.get(k)`: the stored value, or None when the key is absent. -/
def pyGet (d : List (String × PyVal)) (k : String) : PyVal :=
  match List.lookup k d with
  | some v => v
  | none => PyVal.vNone

/-! ## backend/model.py -/

/-- model.py: the fixed ordered list of the 14 conditions (`CONDITIONS`). -/
def CONDITIONS : List String :=
  ["Atelectasis", "Cardiomegaly", "Effusion", "Infiltration", "Mass", "Nodule",
   "Pneumonia", "Pneumothorax", "Consolidation", "Edema", "Emphysema", "Fibrosis",
   "Pleural_Thickening", "Hernia"]

/-- model.py: `NO_FINDING_THRESHOLD = 0.35` (as the rational 35/100). -/
def NO_FINDING_THRESHOLD : ℚ := mkRat 35 100

/-- Numeric dtype tag of a tensor. -/
inductive DType where
  | float32 : DType
  | float64 : DType
  | uint8 : DType
deriving DecidableEq

/-- A rank-3 tensor (C, H, W) with symbolic entries. -/
structure Tensor3 where
  c : Nat
  h : Nat
  w : Nat
  dtype : DType
  val3 : Nat → Nat → Nat → ℚ

/-- A rank-4 tensor (N, C, H, W) with symbolic entries. -/
structure Tensor4 where
  n : Nat
  c : Nat
  h : Nat
  w : Nat
  dtype : DType
  val4 : Nat → Nat → Nat → Nat → ℚ

/-- `image_tensor.float()`: cast to float32, entries unchanged (the model
entries are already exact rationals here). -/
def tensorFloat (t : Tensor4) : Tensor4 :=
  ⟨t.n, t.c, t.h, t.w, DType.float32, t.val4⟩

/-- model.py: a loaded CheXNet instance.  The DenseNet-121 forward pass is
an opaque function of the weights, but the architecture fixes the output
width: the classifier is `Linear(num_ftrs, 14)` followed by `Sigmoid`, so
every forward pass yields exactly 14 values (`num_classes=14` in
`CheXNet.__init__`, output of shape (1, 14) then `squeeze(0)`). -/
structure CheXNetModel where
  forward : Tensor4 → List ℚ
  forward_length : ∀ t, (forward t).length = 14

/-- model.py, predict_image: the dict comprehension
`{CONDITIONS[i]: prob for i, prob in enumerate(probabilities)}` builds the
key/value pairs; `none` models the IndexError raised by `CONDITIONS[i]`
when `i` is out of range. -/
def conditionPairs : List (Nat × ℚ) → Option (List (String × ℚ))
  | [] => some []
  | (i, p) :: rest =>
    match CONDITIONS[i]?, conditionPairs rest with
    | some c, some l2 => some ((c, p) :: l2)
    | _, _ => none

/-- model.py: `predict_image(model, image_tensor)`.  Returns the
predictions dict together with the `no_significant_finding` flag; `none`
models an exception (ValueError when the model is absent or the
probability list is empty, IndexError from `CONDITIONS[i]`). -/
def predict_image (model : Option CheXNetModel) (image_tensor : Tensor4) :
    Option (List (String × ℚ) × Bool) :=
  match model with
  | none => none
  | some m =>
    let probabilities := m.forward (tensorFloat image_tensor)
    match conditionPairs probabilities.enum with
    | none => none
    | some pairs =>
      let predictions := pyDictOfList pairs
      match pyMax (predictions.map Prod.snd) with
      | none => none
      | some max_probability =>
        some (predictions, decide (max_probability < NO_FINDING_THRESHOLD))

/-- Python `k.startswith(pre)`: `pre` is a prefix of `k`. -/
def py_startswith (k pre : String) : Bool :=
  k.toList.take pre.toList.length == pre.toList

/-- model.py, load_densenet_model: the key renaming applied to each entry
of the raw checkpoint state_dict (prepend `model.` to `features.` and
`classifier.` keys, keep every other key as is). -/
def rename_key (k : String) : String :=
  if py_startswith k "features." then "model." ++ k
  else if py_startswith k "classifier." then "model." ++ k
  else k

/-- model.py, load_densenet_model: the loop that builds `new_state_dict`
from the loaded `state_dict`, one Python dict insertion per entry. -/
def remap_state_dict {V : Type} (sd : List (String × V)) : List (String × V) :=
  sd.foldl (fun d p => pyDictInsert d (rename_key p.1) p.2) []

/-- The torch/OS collaborators of load_densenet_model: path existence,
`torch.load` (error = the exception it raised), the freshly constructed
`CheXNet()` instance, and the outcomes of the strict and the non-strict
`load_state_dict` calls on a given remapped state_dict (strict: `some msg`
models a raised RuntimeError; non-strict returns the missing/unexpected
key lists or raises). -/
structure TorchEnv (V M : Type) where
  pathExists : String → Bool
  torchLoad : String → Except String (List (String × V))
  freshModel : M
  strictResult : List (String × V) → Option String
  nonStrict : List (String × V) → Except String (List String × List String)

/-- Errors load_densenet_model can raise. -/
inductive LoadError where
  | fileNotFound : String → LoadError
  | runtimeError : String → LoadError
deriving DecidableEq

/-- model.py: `load_densenet_model(model_path)`.  The global
`_chexnet_model` singleton is passed and returned explicitly; the result
pairs the returned model with the new value of the global. -/
def load_densenet_model {V M : Type} (env : TorchEnv V M) (gmodel : Option M)
    (model_path : String) : Except LoadError (M × Option M) :=
  match gmodel with
  | some m => .ok (m, some m)
  | none =>
    if model_path = "" ∨ env.pathExists model_path = false then
      .error (.fileNotFound ("AI model file not found at: " ++ model_path))
    else
      match env.torchLoad model_path with
      | .error e => .error (.runtimeError ("Failed to load AI model: " ++ e))
      | .ok state_dict =>
        let new_state_dict := remap_state_dict state_dict
        match env.strictResult new_state_dict with
        | none => .ok (env.freshModel, some env.freshModel)
        | some _ =>
          match env.nonStrict new_state_dict with
          | .ok _ => .ok (env.freshModel, some env.freshModel)
          | .error e => .error (.runtimeError ("Failed to load AI model: " ++ e))

/-! ## backend/utils.py -/

/-- utils.py: `IMAGENET_MEAN = [0.485, 0.456, 0.406]`. -/
def IMAGENET_MEAN : List ℚ := [mkRat 485 1000, mkRat 456 1000, mkRat 406 1000]

/-- utils.py: `IMAGENET_STD = [0.229, 0.224, 0.225]`. -/
def IMAGENET_STD : List ℚ := [mkRat 229 1000, mkRat 224 1000, mkRat 225 1000]

/-- A decoded PIL image: channel count, dimensions, and byte-valued pixels
`px c y x` in 0..255. -/
structure RawImage where
  channels : Nat
  width : Nat
  height : Nat
  px : Nat → Nat → Nat → Nat

/-- The PIL/OS collaborators of preprocess_image: `os.path.exists`,
`Image.open` (`none` models a raised decoding error), the pixel kernel of
`convert('RGB')`, and the pixel kernel of bilinear resampling to a target
width and height. -/
structure PreprocessEnv where
  pathExists : String → Bool
  open0 : String → Option RawImage
  convertKernel : RawImage → (Nat → Nat → Nat → Nat)
  resampleKernel : RawImage → Nat → Nat → (Nat → Nat → Nat → Nat)

/-- utils.py: `Image.open(image_path).convert('RGB')` forces exactly 3
channels; the converted pixel values come from the PIL conversion kernel. -/
def convertRGB (env : PreprocessEnv) (img : RawImage) : RawImage :=
  ⟨3, img.width, img.height, env.convertKernel img⟩

/-- torchvision `transforms.Resize(size)` with an integer size: the
shorter edge becomes `size`, the longer edge is scaled to preserve the
aspect ratio (`int(size * long / short)`, here Nat division); pixel values
come from the resampling kernel. -/
def resize (env : PreprocessEnv) (size : Nat) (img : RawImage) : RawImage :=
  let ow := if img.width ≤ img.height then size else size * img.width / img.height
  let oh := if img.width ≤ img.height then size * img.height / img.width else size
  ⟨img.channels, ow, oh, env.resampleKernel img ow oh⟩

/-- torchvision `transforms.CenterCrop(size)`: a `size`-by-`size` window
centred in the image.  When the image is at least `size` in both
dimensions (always the case after `Resize(256)` then crop 224) this is the
exact torchvision crop; the (unreachable here) smaller-image case is
approximated by zero padding at the far edges, matching torchvision's
fill value 0. -/
def center_crop (size : Nat) (img : RawImage) : RawImage :=
  let top := (img.height - size) / 2
  let left := (img.width - size) / 2
  ⟨img.channels, size, size, fun c y x =>
    if top + y < img.height ∧ left + x < img.width then img.px c (top + y) (left + x)
    else 0⟩

/-- torchvision `transforms.ToTensor()`: PIL (H, W, C) bytes to a float32
(C, H, W) tensor scaled to [0, 1] by dividing by 255. -/
def to_tensor (img : RawImage) : Tensor3 :=
  ⟨img.channels, img.height, img.width, DType.float32,
    fun c y x => (img.px c y x : ℚ) / 255⟩

/-- torchvision `transforms.Normalize(mean, std)`: per-channel
`(x - mean[c]) / std[c]`. -/
def normalize (mean std : List ℚ) (t : Tensor3) : Tensor3 :=
  ⟨t.c, t.h, t.w, t.dtype, fun c y x => (t.val3 c y x - mean.getD c 0) / std.getD c 1⟩

/-- `tensor.unsqueeze(0)`: add a leading batch dimension of size 1. -/
def unsqueeze0 (t : Tensor3) : Tensor4 :=
  ⟨1, t.c, t.h, t.w, t.dtype, fun _ c y x => t.val3 c y x⟩

/-- Errors preprocess_image can raise: FileNotFoundError when the path
does not exist, or a PIL decoding error from `Image.open`. -/
inductive PreErr where
  | fileNotFound : String → PreErr
  | imageError : String → PreErr
deriving DecidableEq

/-- utils.py: `preprocess_image(image_path)`: existence check, decode,
force RGB, Resize(256), CenterCrop(224), ToTensor, Normalize(ImageNet),
unsqueeze(0). -/
def preprocess_image (env : PreprocessEnv) (image_path : String) :
    Except PreErr Tensor4 :=
  if env.pathExists image_path then
    match env.open0 image_path with
    | none => .error (.imageError image_path)
    | some raw =>
      let img := convertRGB env raw
      let t3 := normalize IMAGENET_MEAN IMAGENET_STD
        (to_tensor (center_crop 224 (resize env 256 img)))
      .ok (unsqueeze0 t3)
  else
    .error (.fileNotFound ("Image file not found at: " ++ image_path))

/-! ## backend/app.py -/

/-- app.py: `ALLOWED_EXTENSIONS = \x7b'png', 'jpg', 'jpeg', 'gif'\x7d`. -/
def ALLOWED_EXTENSIONS : List (List Char) :=
  [("png").toList, ("jpg").toList, ("jpeg").toList, ("gif").toList]

/-- app.py: `allowed_file(filename)`:
`'.' in filename and filename.rsplit('.', 1)[1].lower() in ALLOWED_EXTENSIONS`. -/
def allowed_file (filename : List Char) : Bool :=
  filename.contains '.' &&
    ALLOWED_EXTENSIONS.contains ((afterLastDot filename).map Char.toLower)

/-- app.py: the `/predict` endpoint.  `hasFilePart` models
`'file' in request.files`, `filename` the upload's filename, `uuidName`
this request's `str(uuid.uuid4())`, and `fs` the set of files in the
upload folder (most recent first).  Returns the HTTP status together with
the state of the upload folder when the response is returned.  The saved
temporary file is removed only on the success path, exactly as in the
source (`os.remove` before the 200 return, no removal in the except
branches). -/
def predict (chexnet_model : Option CheXNetModel) (hasFilePart : Bool)
    (filename : List Char) (penv : PreprocessEnv)
    (uploadFolder uuidName : List Char) (fs : List (List Char)) :
    Nat × List (List Char) :=
  match chexnet_model with
  | none => (500, fs)
  | some m =>
    if !hasFilePart then (400, fs)
    else if filename.isEmpty then (400, fs)
    else if allowed_file filename then
      let fname := uuidName ++ splitext_ext filename
      let filepath := uploadFolder ++ '/' :: fname
      let fs2 := filepath :: fs
      match preprocess_image penv (String.mk filepath) with
      | .error (.fileNotFound _) => (404, fs2)
      | .error (.imageError _) => (500, fs2)
      | .ok t =>
        match predict_image (some m) t with
        | none => (500, fs2)
        | some _ => (200, fs2.erase filepath)
    else (400, fs)

/-- app.py, generate_report endpoint: the opening fence marker searched
with `response_text.find("```json")`. -/
def jsonFenceOpen : List Char := ("```json").toList

/-- app.py, generate_report endpoint: the closing fence marker searched
with `response_text.rfind("```")`. -/
def fenceClose : List Char := ("```").toList

/-- The caller-visible message when the fenced substring fails to parse. -/
def errAfterExtraction : String :=
  "Failed to parse AI generated report. Invalid JSON format after extraction."

/-- The caller-visible message when the whole reply fails to parse. -/
def errUnexpectedFormat : String :=
  "Failed to parse AI generated report. Unexpected response format."

/-- app.py lines 270-293: extraction of the report JSON from the raw
Gemini reply.  `loads` is the `json.loads` collaborator (`none` models a
raised JSONDecodeError).  If `find("```json")` and `rfind("```")` both
succeed with the start strictly before the end, the substring between
them (after the opening marker) is stripped and parsed; otherwise the
whole reply is parsed. -/
def extract_report {J : Type} (loads : List Char → Option J)
    (response_text : List Char) : Except String J :=
  match pyFind response_text jsonFenceOpen, pyRFind response_text fenceClose with
  | some json_start, some json_end =>
    if json_start < json_end then
      match loads (pyStrip (pySlice response_text
          (json_start + jsonFenceOpen.length) json_end)) with
      | some r => .ok r
      | none => .error errAfterExtraction
    else
      match loads response_text with
      | some r => .ok r
      | none => .error errUnexpectedFormat
  | _, _ =>
    match loads response_text with
    | some r => .ok r
    | none => .error errUnexpectedFormat

/-- The fence condition of app.py line 275:
`json_start != -1 and json_end != -1 and json_start < json_end`. -/
def fenceCond (text : List Char) : Bool :=
  match pyFind text jsonFenceOpen, pyRFind text fenceClose with
  | some i, some j => decide (i < j)
  | _, _ => false

/-- Outcome of a generate_report request: HTTP status, whether
`gemini_model.generate_content` was invoked, and the parsed report body
on success. -/
structure ReportResult (J : Type) where
  status : Nat
  apiCalled : Bool
  report : Option J

/-- app.py: the `/generate_report` endpoint.  `body` is the parsed JSON
request body (`none` models an absent or null body), `promptBuild` the
outcome of the prompt construction (its metadata key lookups can raise),
and `apiCall` the outcome of `gemini_model.generate_content(...).text`. -/
def generate_report_endpoint {J : Type} (loads : List Char → Option J)
    (geminiInit : Bool) (body : Option (List (String × PyVal)))
    (promptBuild : Except String Unit) (apiCall : Except String (List Char)) :
    ReportResult J :=
  if !geminiInit then ⟨500, false, none⟩
  else
    match body with
    | none => ⟨400, false, none⟩
    | some data =>
      if !pyTruthy (PyVal.vDictE data) then ⟨400, false, none⟩
      else
        let analysis_results := pyGet data "analysisResults"
        let patient_info := pyGet data "patientInfo"
        let conditions_metadata := pyGet data "conditionsMetadata"
        if !pyTruthy analysis_results || !pyTruthy patient_info
            || !pyTruthy conditions_metadata then ⟨400, false, none⟩
        else
          match promptBuild with
          | .error _ => ⟨500, false, none⟩
          | .ok _ =>
            match apiCall with
            | .error _ => ⟨500, true, none⟩
            | .ok response_text =>
              match extract_report loads response_text with
              | .ok r => ⟨200, true, some r⟩
              | .error _ => ⟨500, true, none⟩

/-! ## Concrete instances used by the witnesses and counterexample runs -/

/-- A probability vector whose maximum is exactly 0.35 (boundary case). -/
def w1probs : List ℚ :=
  [mkRat 35 100, mkRat 1 10, 0, 0, 0, 0, 0, 0, 0, 0, 0, 0, 0, 0]

/-- A concrete loaded model whose forward pass returns `w1probs`. -/
def w1model : CheXNetModel := ⟨fun _ => w1probs, fun _ => rfl⟩

/-- A concrete preprocessed input tensor. -/
def w1tensor : Tensor4 := ⟨1, 3, 224, 224, DType.float32, fun _ _ _ _ => 0⟩

/-- The predictions dict produced from `w1probs`. -/
def w1preds : List (String × ℚ) := CONDITIONS.zip w1probs

/-- A probability vector with all entries 0.5. -/
def w8probs : List ℚ := List.replicate 14 (mkRat 1 2)

/-- A concrete loaded model whose forward pass returns `w8probs`. -/
def w8model : CheXNetModel := ⟨fun _ => w8probs, fun _ => rfl⟩

/-- A concrete preprocessed input tensor. -/
def w8tensor : Tensor4 := ⟨1, 3, 224, 224, DType.float32, fun _ _ _ _ => 1⟩

/-- The predictions dict produced from `w8probs`. -/
def w8preds : List (String × ℚ) := CONDITIONS.zip w8probs

/-- A concrete loaded model for exercising the predict endpoint. -/
def cmodel0 : CheXNetModel := ⟨fun _ => List.replicate 14 (mkRat 1 2), fun _ => rfl⟩

/-- A PIL/OS environment in which every path exists but the saved bytes do
not decode as an image: `Image.open` raises, i.e. an exception occurs
during preprocessing. -/
def penv0 : PreprocessEnv :=
  ⟨fun _ => true, fun _ => none, fun img => img.px, fun img _ _ => img.px⟩

/-- A concrete decodable 640x480 single-channel image. -/
def w4raw : RawImage := ⟨1, 640, 480, fun _ _ _ => 128⟩

/-- A PIL/OS environment in which exactly "a.png" exists and decodes to
`w4raw`. -/
def w4env : PreprocessEnv :=
  ⟨fun p => p == "a.png", fun _ => some w4raw, fun img => img.px, fun img _ _ => img.px⟩

/-- A torch environment whose checkpoint has one `features.` key and whose
strict `load_state_dict` raises, so the permissive path is taken. -/
def w5env : TorchEnv Nat Nat :=
  ⟨fun _ => true, fun _ => .ok [("features.a", 1)], 7,
   fun _ => some "size mismatch", fun _ => .ok (["k"], [])⟩

/-- A torch environment in which the first load succeeds strictly. -/
def w9env : TorchEnv Nat Nat :=
  ⟨fun _ => true, fun _ => .ok [], 7, fun _ => none, fun _ => .ok ([], [])⟩

/-- A torch environment in which no path exists and every torch operation
fails: a second call served from the cache never consults it. -/
def w9env2 : TorchEnv Nat Nat :=
  ⟨fun _ => false, fun _ => .error "io error", 8, fun _ => some "e", fun _ => .error "x"⟩

/-- A Gemini reply wrapping the report JSON in a markdown fence. -/
def w3text : List Char :=
  ("Report: ```json \x7b\"summary\":\"a\"\x7d ``` end").toList

/-- The JSON payload embedded in `w3text`. -/
def w3payload : List Char := ("\x7b\"summary\":\"a\"\x7d").toList

/-! ## Helper lemmas -/

/-- Inserting a key absent from the dict appends the pair. -/
theorem pyDictInsert_of_forall_ne {K V : Type} [DecidableEq K]
    (d : List (K × V)) (k : K) (v : V) (h : ∀ p ∈ d, p.1 ≠ k) :
    pyDictInsert d k v = d ++ [(k, v)] := by
  have hany : d.any (fun p => decide (p.1 = k)) = false := by
    simp only [List.any_eq_false, decide_eq_true_eq]
    exact h
  simp [pyDictInsert, hany]

/-- Folding Python dict insertions of pairwise distinct keys (transformed
by `f`) over an accumulator disjoint from them appends all the pairs. -/
theorem foldl_pyDictInsert_eq {K V : Type} [DecidableEq K] (f : K → K)
    (l : List (K × V)) :
    ∀ acc : List (K × V), (∀ p ∈ l, ∀ q ∈ acc, q.1 ≠ f p.1) →
    (l.map (fun p => f p.1)).Nodup →
    l.foldl (fun d p => pyDictInsert d (f p.1) p.2) acc =
      acc ++ l.map (fun p => (f p.1, p.2)) := by
  induction l with
  | nil => intro acc _ _; simp
  | cons p t ih =>
    intro acc hdisj hnd
    simp only [List.map_cons, List.nodup_cons] at hnd
    simp only [List.foldl_cons]
    rw [pyDictInsert_of_forall_ne acc (f p.1) p.2
      (fun q hq => hdisj p (List.mem_cons_self p t) q hq)]
    rw [ih (acc ++ [(f p.1, p.2)]) ?_ hnd.2]
    · simp
    · intro r hr q hq
      rcases List.mem_append.1 hq with hq1 | hq2
      · exact hdisj r (List.mem_cons_of_mem _ hr) q hq1
      · have hq3 : q = (f p.1, p.2) := by simpa using hq2
        subst hq3
        intro hcontra
        have hcontra2 : f p.1 = f r.1 := hcontra
        exact hnd.1 (by rw [hcontra2]; exact List.mem_map_of_mem (fun p => f p.1) hr)

/-- A Python dict built from pairs with pairwise distinct keys is exactly
that list of pairs, in order. -/
theorem pyDictOfList_eq_self {K V : Type} [DecidableEq K] (l : List (K × V))
    (h : (l.map (fun p => p.1)).Nodup) : pyDictOfList l = l := by
  have h2 := foldl_pyDictInsert_eq (fun k => k) l [] (by simp) h
  simpa [pyDictOfList] using h2

/-- The dict-comprehension pairs of an enumeration starting at `j` that
stays within `CONDITIONS` are the zip of the remaining condition names
with the probabilities. -/
theorem conditionPairs_enumFrom (l : List ℚ) :
    ∀ j : Nat, j + l.length ≤ CONDITIONS.length →
    conditionPairs (List.enumFrom j l) = some ((CONDITIONS.drop j).zip l) := by
  induction l with
  | nil => intro j _; simp [conditionPairs, List.enumFrom]
  | cons p t ih =>
    intro j hj
    have hjlt : j < CONDITIONS.length := by
      simp only [List.length_cons] at hj; omega
    have hjt : (j + 1) + t.length ≤ CONDITIONS.length := by
      simp only [List.length_cons] at hj; omega
    have hget : CONDITIONS[j]? = some CONDITIONS[j] :=
      List.getElem?_eq_getElem hjlt
    have hdrop : CONDITIONS.drop j = CONDITIONS[j] :: CONDITIONS.drop (j + 1) :=
      List.drop_eq_getElem_cons hjlt
    show conditionPairs ((j, p) :: List.enumFrom (j + 1) t) = _
    rw [conditionPairs, hget, ih (j + 1) hjt, hdrop, List.zip_cons_cons]

/-- `takeWhile` over a list whose prefix all satisfies the predicate,
followed by a failing element, returns exactly that prefix. -/
theorem takeWhile_append_stop {α : Type} (p : α → Bool) (l : List α) (x : α)
    (r : List α) (hl : ∀ a ∈ l, p a = true) (hx : p x = false) :
    (l ++ x :: r).takeWhile p = l := by
  induction l with
  | nil => simp [List.takeWhile_cons, hx]
  | cons a t ih =>
    have ha : p a = true := hl a (List.mem_cons_self a t)
    simp [List.takeWhile_cons, ha,
      ih (fun b hb => hl b (List.mem_cons_of_mem _ hb))]

/-- The characters after the last dot of `stem ++ "." ++ ext` are `ext`
when `ext` itself contains no dot. -/
theorem afterLastDot_append (stem ext : List Char) (h : '.' ∉ ext) :
    afterLastDot (stem ++ '.' :: ext) = ext := by
  unfold afterLastDot
  rw [List.reverse_append, List.reverse_cons, List.append_assoc,
    List.singleton_append]
  rw [takeWhile_append_stop _ ext.reverse '.' stem.reverse ?_ (by simp)]
  · exact List.reverse_reverse ext
  · intro a ha
    have haext : a ∈ ext := List.mem_reverse.1 ha
    have hne : a ≠ '.' := fun he => h (he ▸ haext)
    simp [hne]

/-! ## Claim theorems -/

/-- C1: for every call to predict_image that returns, the returned
no_significant_finding flag is true if and only if the maximum value of
the returned probability mapping is strictly less than 0.35; in
particular, when the maximum probability equals exactly 0.35 the flag is
false. -/
theorem predict_no_finding_iff (m : CheXNetModel) (t : Tensor4)
    (preds : List (String × ℚ)) (flag : Bool)
    (h : predict_image (some m) t = some (preds, flag)) :
    ∃ mx, pyMax (preds.map Prod.snd) = some mx ∧
      (flag = true ↔ mx < NO_FINDING_THRESHOLD) ∧
      (mx = NO_FINDING_THRESHOLD → flag = false) := by
  simp only [predict_image] at h
  cases hcp : conditionPairs (m.forward (tensorFloat t)).enum with
  | none => rw [hcp] at h; exact absurd h (by simp)
  | some pairs =>
    rw [hcp] at h
    simp only at h
    cases hmx : pyMax ((pyDictOfList pairs).map Prod.snd) with
    | none => rw [hmx] at h; exact absurd h (by simp)
    | some mx =>
      rw [hmx] at h
      simp only [Option.some.injEq, Prod.mk.injEq] at h
      obtain ⟨hp, hf⟩ := h
      subst hp
      refine ⟨mx, hmx, ?_, ?_⟩
      · rw [← hf]
        simp [decide_eq_true_iff]
      · intro he
        rw [← hf, he]
        simp

/-- C1 witness: a model whose maximum probability is exactly 0.35
produces the flag false (the boundary case of the strict comparison). -/
theorem predict_no_finding_iff_witness :
    ∃ mx, pyMax (w1preds.map Prod.snd) = some mx ∧
      ((false : Bool) = true ↔ mx < NO_FINDING_THRESHOLD) ∧
      (mx = NO_FINDING_THRESHOLD → (false : Bool) = false) :=
  predict_no_finding_iff w1model w1tensor w1preds false (by decide)

/-- C8: for every call to predict_image that returns, the keys of the
returned probability mapping are exactly the 14 names of the fixed
CONDITIONS list, in the same order, with each model-output position i
mapped to CONDITIONS[i] (the result is the positional zip of CONDITIONS
with the forward output). -/
theorem predict_image_keys (m : CheXNetModel) (t : Tensor4)
    (preds : List (String × ℚ)) (flag : Bool)
    (h : predict_image (some m) t = some (preds, flag)) :
    preds.map Prod.fst = CONDITIONS ∧
    preds = CONDITIONS.zip (m.forward (tensorFloat t)) := by
  have hlen : (m.forward (tensorFloat t)).length = 14 := m.forward_length _
  have hle : CONDITIONS.length ≤ (m.forward (tensorFloat t)).length := by
    rw [hlen]; decide
  have hcp : conditionPairs (m.forward (tensorFloat t)).enum =
      some (CONDITIONS.zip (m.forward (tensorFloat t))) := by
    have h0 := conditionPairs_enumFrom (m.forward (tensorFloat t)) 0
      (by rw [hlen]; decide)
    simpa [List.enum] using h0
  have hnodup : ((CONDITIONS.zip (m.forward (tensorFloat t))).map
      Prod.fst).Nodup := by
    rw [List.map_fst_zip _ _ hle]
    decide
  have hdict : pyDictOfList (CONDITIONS.zip (m.forward (tensorFloat t))) =
      CONDITIONS.zip (m.forward (tensorFloat t)) :=
    pyDictOfList_eq_self _ hnodup
  simp only [predict_image] at h
  rw [hcp] at h
  simp only [hdict] at h
  cases hmx : pyMax ((CONDITIONS.zip (m.forward (tensorFloat t))).map Prod.snd) with
  | none => rw [hmx] at h; exact absurd h (by simp)
  | some mx =>
    rw [hmx] at h
    simp only [Option.some.injEq, Prod.mk.injEq] at h
    obtain ⟨hp, _⟩ := h
    subst hp
    exact ⟨List.map_fst_zip _ _ hle, rfl⟩

/-- C8 witness: a concrete forward output of 14 values yields a
predictions dict whose keys are exactly CONDITIONS in order. -/
theorem predict_image_keys_witness :
    w8preds.map Prod.fst = CONDITIONS ∧
    w8preds = CONDITIONS.zip (w8model.forward (tensorFloat w8tensor)) :=
  predict_image_keys w8model w8tensor w8preds false (by decide)

/-- C4: for every path that exists and decodes, preprocess_image returns
a rank-4 float32 tensor of shape (1, 3, 224, 224) produced by the fixed
pipeline (force RGB, resize shorter edge to 256, center-crop 224, scale
to [0,1], ImageNet normalize, add batch dimension); for every path that
does not exist it raises FileNotFound. -/
theorem preprocess_image_spec (env : PreprocessEnv) :
    (∀ path : String, env.pathExists path = false →
      preprocess_image env path =
        .error (.fileNotFound ("Image file not found at: " ++ path))) ∧
    (∀ (path : String) (raw : RawImage), env.pathExists path = true →
      env.open0 path = some raw →
      ∃ t : Tensor4, preprocess_image env path = .ok t ∧
        t = unsqueeze0 (normalize IMAGENET_MEAN IMAGENET_STD
              (to_tensor (center_crop 224 (resize env 256 (convertRGB env raw))))) ∧
        t.n = 1 ∧ t.c = 3 ∧ t.h = 224 ∧ t.w = 224 ∧ t.dtype = DType.float32) := by
  constructor
  · intro path h
    simp [preprocess_image, h]
  · intro path raw h1 h2
    refine ⟨_, ?_, rfl, rfl, rfl, rfl, rfl, rfl⟩
    simp [preprocess_image, h1, h2]

/-- C4 witness: a nonexistent path raises FileNotFound, and an existing
decodable 640x480 image produces a (1, 3, 224, 224) float32 tensor. -/
theorem preprocess_image_spec_witness :
    preprocess_image w4env "b.png" =
      .error (.fileNotFound ("Image file not found at: " ++ "b.png")) ∧
    (∃ t : Tensor4, preprocess_image w4env "a.png" = .ok t ∧
      t = unsqueeze0 (normalize IMAGENET_MEAN IMAGENET_STD
            (to_tensor (center_crop 224 (resize w4env 256 (convertRGB w4env w4raw))))) ∧
      t.n = 1 ∧ t.c = 3 ∧ t.h = 224 ∧ t.w = 224 ∧ t.dtype = DType.float32) :=
  ⟨(preprocess_image_spec w4env).1 "b.png" (by decide),
   (preprocess_image_spec w4env).2 "a.png" w4raw (by decide) rfl⟩

/-- C5: the checkpoint key remap maps every state-dict key starting with
"features." or "classifier." to the same key with "model." prepended,
leaves every other key unchanged, preserves each key's value, and when
the strict load of the remapped dict fails the remaining mismatches are
loaded permissively (the load still succeeds). -/
theorem load_remap_spec (V M : Type) :
    (∀ k : String, py_startswith k "features." = true →
      rename_key k = "model." ++ k) ∧
    (∀ k : String, py_startswith k "classifier." = true →
      rename_key k = "model." ++ k) ∧
    (∀ k : String, py_startswith k "features." = false →
      py_startswith k "classifier." = false → rename_key k = k) ∧
    (∀ sd : List (String × V), (sd.map (fun p => rename_key p.1)).Nodup →
      remap_state_dict sd = sd.map (fun p => (rename_key p.1, p.2))) ∧
    (∀ (env : TorchEnv V M) (path : String) (sd : List (String × V))
        (err : String) (mu : List String × List String),
      path ≠ "" → env.pathExists path = true → env.torchLoad path = .ok sd →
      env.strictResult (remap_state_dict sd) = some err →
      env.nonStrict (remap_state_dict sd) = .ok mu →
      load_densenet_model env none path = .ok (env.freshModel, some env.freshModel)) := by
  refine ⟨?_, ?_, ?_, ?_, ?_⟩
  · intro k h
    simp [rename_key, h]
  · intro k h
    cases hf : py_startswith k "features." <;> simp [rename_key, hf, h]
  · intro k h1 h2
    simp [rename_key, h1, h2]
  · intro sd hnd
    have h2 := foldl_pyDictInsert_eq rename_key sd [] (by simp) hnd
    simpa [remap_state_dict] using h2
  · intro env path sd err mu hne hex hload hstrict hnon
    simp [load_densenet_model, hne, hex, hload, hstrict, hnon]

/-- C5 witness: concrete keys of each kind are remapped as claimed, a
concrete state dict is remapped entrywise with values preserved, and a
load whose strict attempt fails still succeeds permissively. -/
theorem load_remap_spec_witness :
    rename_key "features.conv0.weight" = "model." ++ "features.conv0.weight" ∧
    rename_key "classifier.0.bias" = "model." ++ "classifier.0.bias" ∧
    rename_key "norm5.weight" = "norm5.weight" ∧
    remap_state_dict [("features.a", (1 : Nat)), ("norm5.b", 2)] =
      [("features.a", (1 : Nat)), ("norm5.b", 2)].map
        (fun p => (rename_key p.1, p.2)) ∧
    load_densenet_model w5env none "chexnet.pth" = .ok (7, some 7) :=
  ⟨(load_remap_spec Nat Nat).1 "features.conv0.weight" (by decide),
   (load_remap_spec Nat Nat).2.1 "classifier.0.bias" (by decide),
   (load_remap_spec Nat Nat).2.2.1 "norm5.weight" (by decide) (by decide),
   (load_remap_spec Nat Nat).2.2.2.1 [("features.a", (1 : Nat)), ("norm5.b", 2)]
     (by decide),
   (load_remap_spec Nat Nat).2.2.2.2 w5env "chexnet.pth" [("features.a", 1)]
     "size mismatch" (["k"], []) (by decide) rfl rfl rfl rfl⟩

/-- C9: after one successful call to load_densenet_model the global
singleton is set, and every subsequent call returns the same model object
regardless of the path argument and of the environment (no existence
re-check): in particular a second call with a nonexistent path succeeds. -/
theorem load_densenet_model_cached (V M : Type) (env env2 : TorchEnv V M)
    (path path2 : String) (m : M) (g : Option M)
    (h : load_densenet_model env none path = .ok (m, g)) :
    g = some m ∧ load_densenet_model env2 g path2 = .ok (m, g) := by
  have hg : g = some m := by
    simp only [load_densenet_model] at h
    by_cases h1 : path = "" ∨ env.pathExists path = false
    · rw [if_pos h1] at h
      exact absurd h (by simp)
    · rw [if_neg h1] at h
      cases h2 : env.torchLoad path with
      | error e =>
        rw [h2] at h
        exact absurd h (by simp)
      | ok sd =>
        rw [h2] at h
        simp only at h
        cases h3 : env.strictResult (remap_state_dict sd) with
        | none =>
          rw [h3] at h
          simp only [Except.ok.injEq, Prod.mk.injEq] at h
          rw [← h.2, ← h.1]
        | some e =>
          rw [h3] at h
          cases h4 : env.nonStrict (remap_state_dict sd) with
          | ok mu =>
            rw [h4] at h
            simp only [Except.ok.injEq, Prod.mk.injEq] at h
            rw [← h.2, ← h.1]
          | error e2 =>
            rw [h4] at h
            exact absurd h (by simp)
  subst hg
  exact ⟨rfl, rfl⟩

/-- C9 witness: after a successful first load (model 7 cached), a second
call in an environment where no path exists and every torch operation
fails returns the cached model 7 without error. -/
theorem load_densenet_model_cached_witness :
    (some 7 : Option Nat) = some 7 ∧
    load_densenet_model w9env2 (some 7) "does/not/exist.pth" = .ok (7, some 7) :=
  load_densenet_model_cached Nat Nat w9env w9env2 "model/chexnet.pth"
    "does/not/exist.pth" 7 (some 7) rfl

/-- With the model loaded and a file part present, a filename failing the
extension check is answered 400 with the upload folder untouched (shared
by the extension-handling claims). -/
theorem predict_of_not_allowed (m : CheXNetModel) (filename : List Char)
    (penv : PreprocessEnv) (uploadFolder uuidName : List Char)
    (fs : List (List Char)) (hext : allowed_file filename = false) :
    predict (some m) true filename penv uploadFolder uuidName fs = (400, fs) := by
  cases hemp : filename.isEmpty <;> simp [predict, hemp, hext]

/-- C6: for every /predict request (model loaded) whose uploaded filename
has a disallowed extension, the response is HTTP 400 and the upload is
never written to the upload folder (the folder state is unchanged). -/
theorem predict_rejects_bad_extension (m : CheXNetModel) (filename : List Char)
    (penv : PreprocessEnv) (uploadFolder uuidName : List Char)
    (fs : List (List Char)) (hext : allowed_file filename = false) :
    predict (some m) true filename penv uploadFolder uuidName fs = (400, fs) :=
  predict_of_not_allowed m filename penv uploadFolder uuidName fs hext

/-- C6 witness: uploading "report.txt" yields 400 and an empty upload
folder stays empty. -/
theorem predict_rejects_bad_extension_witness :
    predict (some cmodel0) true (("report.txt").toList) penv0
      (("static/uploads").toList) (("u1").toList) [] = (400, []) :=
  predict_rejects_bad_extension cmodel0 (("report.txt").toList) penv0
    (("static/uploads").toList) (("u1").toList) [] (by decide)

/-- C10: the /predict extension check is case-insensitive and requires a
dot: a filename whose lowercased final extension is in the allowed set is
accepted by allowed_file, while a non-empty filename containing no '.' is
rejected with HTTP 400 (upload folder unchanged). -/
theorem predict_extension_case_insensitive :
    (∀ stem ext : List Char, '.' ∉ ext →
      ALLOWED_EXTENSIONS.contains (ext.map Char.toLower) = true →
      allowed_file (stem ++ '.' :: ext) = true) ∧
    (∀ filename : List Char, filename ≠ [] → '.' ∉ filename →
      ∀ (m : CheXNetModel) (penv : PreprocessEnv)
        (uploadFolder uuidName : List Char) (fs : List (List Char)),
        predict (some m) true filename penv uploadFolder uuidName fs = (400, fs)) := by
  constructor
  · intro stem ext hdot hmem
    unfold allowed_file
    rw [afterLastDot_append stem ext hdot, hmem]
    simp
  · intro filename hne hdot m penv uploadFolder uuidName fs
    have hcont : filename.contains '.' = false := by simp [hdot]
    have hext : allowed_file filename = false := by
      unfold allowed_file
      rw [hcont]
      rfl
    exact predict_of_not_allowed m filename penv uploadFolder uuidName fs hext

/-- C10 witness: "x.PNG" passes the extension check (case-insensitive),
and the dotless filename "README" is answered 400 with the folder
unchanged. -/
theorem predict_extension_case_insensitive_witness :
    allowed_file (("x").toList ++ '.' :: ("PNG").toList) = true ∧
    predict (some cmodel0) true (("README").toList) penv0
      (("static/uploads").toList) (("u2").toList) [] = (400, []) :=
  ⟨predict_extension_case_insensitive.1 (("x").toList) (("PNG").toList)
     (by decide) (by decide),
   predict_extension_case_insensitive.2 (("README").toList) (by decide)
     (by decide) cmodel0 penv0 (("static/uploads").toList) (("u2").toList) []⟩

/-- C2 (the code violates the claim): a /predict request whose upload
"scan.png" passes the extension check and is saved, but whose saved bytes
fail to decode during preprocessing, returns 500 with the temporary file
"static/uploads/u1.png" still present in the upload folder: the cleanup
`os.remove` runs only on the success path. -/
theorem predict_leaks_temp_file :
    predict (some cmodel0) true (("scan.png").toList) penv0
      (("static/uploads").toList) (("u1").toList) [] =
      (500, [("static/uploads/u1.png").toList]) := by
  decide

/-- C7: for every /generate_report request with the generator initialized,
if the body is absent or any of analysisResults, patientInfo,
conditionsMetadata is missing, the response is HTTP 400 and the external
API is never invoked. -/
theorem generate_report_requires_fields (J : Type) (loads : List Char → Option J)
    (body : Option (List (String × PyVal)))
    (promptBuild : Except String Unit) (apiCall : Except String (List Char))
    (h : body = none ∨ ∃ d, body = some d ∧
      (List.lookup "analysisResults" d = none ∨
       List.lookup "patientInfo" d = none ∨
       List.lookup "conditionsMetadata" d = none)) :
    (generate_report_endpoint loads true body promptBuild apiCall).status = 400 ∧
    (generate_report_endpoint loads true body promptBuild apiCall).apiCalled = false := by
  rcases h with rfl | ⟨d, rfl, hmiss⟩
  · exact ⟨rfl, rfl⟩
  · cases hT : pyTruthy (PyVal.vDictE d) <;>
      rcases hmiss with h1 | h1 | h1 <;>
      simp [generate_report_endpoint, pyGet, h1, hT, pyTruthy]

/-- C7 witness: an absent body yields 400 with no API call. -/
theorem generate_report_requires_fields_witness :
    (generate_report_endpoint (fun _ => (none : Option Unit)) true none
      (.ok ()) (.error "x")).status = 400 ∧
    (generate_report_endpoint (fun _ => (none : Option Unit)) true none
      (.ok ()) (.error "x")).apiCalled = false :=
  generate_report_requires_fields Unit (fun _ => none) none (.ok ())
    (.error "x") (Or.inl rfl)

/-- C3: report parsing follows the fixed fallback order: when the reply
contains a "```json" opening marker and a later last "```" marker, the
stripped substring between them is handed to the JSON parser and a
well-formed fenced reply returns exactly the embedded object; when no
such fence is found the entire reply is parsed; and when the chosen parse
fails, the endpoint answers HTTP 500 with no report instead of crashing. -/
theorem generate_report_parse_order (J : Type) (loads : List Char → Option J)
    (text : List Char) :
    (∀ i j : Nat, pyFind text jsonFenceOpen = some i →
      pyRFind text fenceClose = some j → i < j →
      extract_report loads text =
        (match loads (pyStrip (pySlice text (i + jsonFenceOpen.length) j)) with
         | some r => Except.ok r
         | none => Except.error errAfterExtraction)) ∧
    (fenceCond text = false →
      extract_report loads text =
        (match loads text with
         | some r => Except.ok r
         | none => Except.error errUnexpectedFormat)) ∧
    (∀ (d : List (String × PyVal)) (e : String),
      pyTruthy (PyVal.vDictE d) = true →
      pyTruthy (pyGet d "analysisResults") = true →
      pyTruthy (pyGet d "patientInfo") = true →
      pyTruthy (pyGet d "conditionsMetadata") = true →
      extract_report loads text = .error e →
      (generate_report_endpoint loads true (some d) (.ok ()) (.ok text)).status
          = 500 ∧
      (generate_report_endpoint loads true (some d) (.ok ()) (.ok text)).report
          = none) := by
  refine ⟨?_, ?_, ?_⟩
  · intro i j hi hj hij
    simp only [extract_report, hi, hj]
    rw [if_pos hij]
  · intro hF
    unfold fenceCond at hF
    cases hi : pyFind text jsonFenceOpen with
    | none => simp [extract_report, hi]
    | some i =>
      cases hj : pyRFind text fenceClose with
      | none => simp [extract_report, hi, hj]
      | some j =>
        rw [hi, hj] at hF
        simp only at hF
        have hnlt : ¬ i < j := by simpa using hF
        simp only [extract_report, hi, hj]
        rw [if_neg hnlt]
  · intro d e h0 h1 h2 h3 herr
    constructor <;> simp [generate_report_endpoint, h0, h1, h2, h3, herr]

/-- C3 witness: a reply wrapping the report JSON in a ```json fence
extracts exactly the embedded payload. -/
theorem generate_report_parse_order_witness :
    extract_report (fun s => some s) w3text = Except.ok w3payload := by
  have h := (generate_report_parse_order (List Char) (fun s => some s) w3text).1
    8 32 (by decide) (by decide) (by decide)
  rw [h]
  show Except.ok (pyStrip (pySlice w3text (8 + jsonFenceOpen.length) 32)) =
    Except.ok w3payload
  rw [show pyStrip (pySlice w3text (8 + jsonFenceOpen.length) 32) = w3payload
    from by decide]

end MedAlze
